import Mathlib

/-!
Shallow embedding of the section-level reconciliation pipeline of
`scripts/main_workflow_local.py` and `scripts/image_processor.py`.

External collaborators (the tiktoken encoder, the GitHub client, the
`section_matcher` / `pr_analyzer` / `file_updater` modules, the AI backends)
are modelled as explicit parameters; exceptions raised by collaborators are
modelled with `Option` / `Except`.
-/

/-- Model of Python `str.strip()`: drop leading and trailing whitespace. -/
def pyStrip (s : String) : String :=
  ⟨((s.data.dropWhile Char.isWhitespace).reverse.dropWhile Char.isWhitespace).reverse⟩

/-- Embedding of `estimate_tokens` (main_workflow_local.py lines 113-124).
`tok` models the external tiktoken `cl100k_base` encoder's token count:
`none` models the encoder raising (import/encoding failure), in which case
the code falls back to `len(text) // 4`.  Empty text short-circuits to 0. -/
def estimate_tokens (tok : Option (String → Nat)) (text : String) : Nat :=
  if text = "" then 0
  else
    match tok with
    | some enc => enc text
    | none => text.length / 4

/-- One value of the loaded `source_diff_dict` JSON object: either not a
dict (skipped by the gate loop) or a dict whose `new_content` field is the
given string (a missing field defaults to `""`). -/
inductive DiffEntry where
  | nonDict : DiffEntry
  | sec (new_content : String) : DiffEntry
deriving DecidableEq, Repr

/-- The `total_new_content` accumulation of `check_source_token_limit`
(lines 209-217): concatenate every truthy (non-empty) `new_content` followed
by a newline, in dict order. -/
def total_new_content (entries : List DiffEntry) : String :=
  entries.foldl
    (fun acc e =>
      match e with
      | DiffEntry.nonDict => acc
      | DiffEntry.sec nc => if nc = "" then acc else acc ++ nc ++ "\n")
    ""

/-- The configured source-content ceiling `SOURCE_TOKEN_LIMIT` (line 50). -/
def SOURCE_TOKEN_LIMIT : Nat := 5000

/-- Embedding of `check_source_token_limit` (lines 203-240).
`source` is the parsed content of the source-diff-dict file; `none` models
any exception while opening/parsing it (the surrounding `try` returns
`(True, 0, 0)`).  Whitespace-only accumulated content hits the
`not total_new_content.strip()` branch and also returns `(True, 0, 0)`. -/
def check_source_token_limit (tok : Option (String → Nat))
    (source : Option (List DiffEntry)) (token_limit : Nat) :
    Bool × Nat × Nat :=
  match source with
  | none => (true, 0, 0)
  | some entries =>
    let total := total_new_content entries
    if pyStrip total = "" then (true, 0, 0)
    else
      let t := estimate_tokens tok total
      if t > token_limit then (false, t, token_limit)
      else (true, t, token_limit)

/-- The claim C2 states the gate denies exactly when the estimated token
count of the concatenated non-empty `new_content` fields exceeds the
ceiling.  This is false: with ceiling 0 and a single whitespace-only (but
non-empty, hence accumulated) `new_content`, the concatenation's estimated
cost is 1 > 0, yet the `strip()` guard makes the gate allow with cost 0. -/
theorem C2_counterexample_whitespace_content :
    (check_source_token_limit none (some [DiffEntry.sec "    "]) 0).1 = true
      ∧ 0 < estimate_tokens none (total_new_content [DiffEntry.sec "    "]) := by
  decide

/-- C2 (amended): the gate returns `(decision, cost, ceiling)`; the decision
is deny exactly when the concatenated non-empty `new_content` is not
whitespace-only AND its estimated token count strictly exceeds the ceiling;
when the concatenation is empty (in particular when no `new_content` is
present at all) the gate allows with reported cost 0. -/
theorem C2_gate_decision_amended (tok : Option (String → Nat))
    (entries : List DiffEntry) (token_limit : Nat) :
    ((check_source_token_limit tok (some entries) token_limit).1 = false ↔
      (pyStrip (total_new_content entries) ≠ ""
        ∧ token_limit < estimate_tokens tok (total_new_content entries)))
    ∧ (total_new_content entries = "" →
        check_source_token_limit tok (some entries) token_limit = (true, 0, 0)) := by
  constructor
  · unfold check_source_token_limit
    by_cases hs : pyStrip (total_new_content entries) = ""
    · simp [hs]
    · by_cases ht : token_limit < estimate_tokens tok (total_new_content entries)
      · simp [hs, ht]
      · simp [hs, ht]
  · intro h0
    have hstrip : pyStrip (total_new_content entries) = "" := by rw [h0]; rfl
    simp [check_source_token_limit, hstrip]

/-- Witness for C2_gate_decision_amended at a concrete input: an empty
source-diff dict is allowed with cost 0 and reported ceiling 0. -/
theorem C2_gate_decision_amended_witness :
    check_source_token_limit none (some ([] : List DiffEntry)) 5 = (true, 0, 0) :=
  (C2_gate_decision_amended none [] 5).2 rfl

/-- C3: any exception while reading/parsing the source-diff-dict file makes
`check_source_token_limit` return `(True, 0, 0)` (fail-open), and
`estimate_tokens` never raises when the tokenizer fails: it falls back to
the `len(text) // 4` character approximation (0 on empty text). -/
theorem C3_gate_fail_open :
    (∀ (tok : Option (String → Nat)) (token_limit : Nat),
      check_source_token_limit tok none token_limit = (true, 0, 0))
    ∧ (∀ text : String,
        estimate_tokens none text = if text = "" then 0 else text.length / 4) := by
  constructor
  · intro tok token_limit
    rfl
  · intro text
    unfold estimate_tokens
    by_cases h : text = "" <;> simp [h]

/-- C5: the cost estimate is monotone under prefix extension.  The tiktoken
encoder is an external library, modelled as the parameter `tok`; the
hypothesis is its interface contract (token counts monotone under
appending).  The repository's own code paths — the empty-text
short-circuit, and the `len // 4` fallback used when the encoder raises —
preserve monotonicity unconditionally. -/
theorem C5_estimate_tokens_monotone (tok : Option (String → Nat))
    (htok : ∀ f, tok = some f → ∀ s u : String, f s ≤ f (s ++ u))
    (A C : String) :
    estimate_tokens tok A ≤ estimate_tokens tok (A ++ C) := by
  unfold estimate_tokens
  by_cases hA : A = ""
  · simp [hA]
  · have hAC : A ++ C ≠ "" := by
      intro h
      apply hA
      obtain ⟨la⟩ := A
      obtain ⟨lc⟩ := C
      have : la ++ lc = [] := congrArg String.data h
      have : la = [] := (List.append_eq_nil.mp this).1
      simp [this]
    rw [if_neg hA, if_neg hAC]
    match tok with
    | some f => exact htok f rfl A C
    | none =>
      apply Nat.div_le_div_right
      obtain ⟨la⟩ := A
      obtain ⟨lc⟩ := C
      show la.length ≤ (la ++ lc).length
      simp

/-- Witness for C5_estimate_tokens_monotone: the fallback estimator on the
concrete prefix pair `"ab"`, `"ab" ++ "cd"`. -/
theorem C5_estimate_tokens_monotone_witness :
    estimate_tokens none "ab" ≤ estimate_tokens none ("ab" ++ "cd") :=
  C5_estimate_tokens_monotone none (fun _ h => by cases h) "ab" "cd"

/-- One value of the match artifact (`match_source_diff_to_target.json`):
the fields read by the annotation loop of `process_regular_modified_file`
(lines 475-487).  `target_new_content = none` models the field being
absent; `some none` models the JSON value `null`. -/
structure MatchSection where
  source_operation : String
  target_content : String
  target_new_content : Option (Option String)
deriving DecidableEq, Repr

/-- One iteration of the annotation loop (lines 475-487): a deleted section
gets `target_new_content = null`; a key present in the AI results gets the
translated content; otherwise the existing `target_content` is kept.
`ai` models the `ai_updated_sections` dict as a lookup. -/
def annotate_section (ai : String → Option String) (key : String)
    (s : MatchSection) : MatchSection :=
  if s.source_operation = "deleted" then
    { s with target_new_content := some none }
  else
    match ai key with
    | some t => { s with target_new_content := some (some t) }
    | none => { s with target_new_content := some (some s.target_content) }

/-- The whole annotation loop over the loaded match data (dict iteration in
insertion order, modelled as a list of key/section pairs). -/
def annotate_match_data (ai : String → Option String)
    (match_data : List (String × MatchSection)) : List (String × MatchSection) :=
  match_data.map (fun kv => (kv.1, annotate_section ai kv.1 kv.2))

/-- C1: every record produced by the annotation step whose
`source_operation` is `"deleted"` has `target_new_content` set to JSON
`null`, regardless of what the translation stage returned for its key. -/
theorem C1_deleted_records_null (ai : String → Option String)
    (match_data : List (String × MatchSection)) (kv : String × MatchSection)
    (hmem : kv ∈ annotate_match_data ai match_data)
    (hdel : kv.2.source_operation = "deleted") :
    kv.2.target_new_content = some none := by
  unfold annotate_match_data at hmem
  obtain ⟨pre, hpre, hkv⟩ := List.mem_map.mp hmem
  subst hkv
  simp only [annotate_section] at hdel ⊢
  by_cases hop : pre.2.source_operation = "deleted"
  · simp [hop]
  · exfalso
    apply hop
    rw [if_neg hop] at hdel
    revert hdel
    match ai pre.1 with
    | some t => intro h; exact h
    | none => intro h; exact h

/-- Witness for C1_deleted_records_null: a concrete deleted record whose
key the AI results do contain still ends up with `null`. -/
theorem C1_deleted_records_null_witness :
    (annotate_section (fun _ => some "X") "k"
      ⟨"deleted", "tc", none⟩).target_new_content = some none :=
  C1_deleted_records_null (fun _ => some "X") [("k", ⟨"deleted", "tc", none⟩)]
    ("k", annotate_section (fun _ => some "X") "k" ⟨"deleted", "tc", none⟩)
    (by simp [annotate_match_data]) (by rfl)

/-- The two AI providers of `UnifiedAIClient` (lines 135-201). -/
inductive Provider where
  | deepseek : Provider
  | gemini : Provider
deriving DecidableEq, Repr

/-- The default translation-request ceiling `DEFAULT_MAX_TOKENS` (line 53). -/
def DEFAULT_MAX_TOKENS : Nat := 8000

/-- The per-provider configured ceilings `PROVIDER_MAX_TOKENS` (lines 54-57). -/
def PROVIDER_MAX_TOKENS : Provider → Nat
  | Provider.deepseek => 20000
  | Provider.gemini => DEFAULT_MAX_TOKENS

/-- Python's `x or d` for an optional integer: `None` and `0` are falsy. -/
def pyOrDefault (mt : Option Nat) (d : Nat) : Nat :=
  match mt with
  | none => d
  | some 0 => d
  | some n => n

/-- The value `actual_max_tokens = min(max_tokens or 8192, 8192)` computed
by the DeepSeek branch of `chat_completion` (line 158). -/
def actual_max_tokens_deepseek (max_tokens : Option Nat) : Nat :=
  min (pyOrDefault max_tokens 8192) 8192

/-- The `max_tokens` value `chat_completion` passes to the backend request:
the DeepSeek branch sends the capped value, the Gemini branch sends none
(its `generate_content` call has no max-tokens argument, lines 173-176). -/
def chat_completion_sent_max_tokens : Provider → Option Nat → Option Nat
  | Provider.deepseek, mt => some (actual_max_tokens_deepseek mt)
  | Provider.gemini, _ => none

/-- C8: for every DeepSeek call the backend receives
`min(max_tokens or 8192, 8192)`, which never exceeds 8192 — in particular
the configured DeepSeek ceiling of 20000 and the `None` default are both
capped to 8192. -/
theorem C8_deepseek_max_tokens_capped :
    (∀ mt : Option Nat,
      chat_completion_sent_max_tokens Provider.deepseek mt
        = some (min (pyOrDefault mt 8192) 8192)
      ∧ actual_max_tokens_deepseek mt ≤ 8192)
    ∧ chat_completion_sent_max_tokens Provider.deepseek
        (some (PROVIDER_MAX_TOKENS Provider.deepseek)) = some 8192
    ∧ chat_completion_sent_max_tokens Provider.deepseek none = some 8192 := by
  refine ⟨fun mt => ⟨rfl, ?_⟩, rfl, rfl⟩
  exact Nat.min_le_right _ _

/-- A call to the Gemini backend, as seen by the `chat_completion` Gemini
branch (lines 166-189): either the API raises (`error`), or it returns a
response whose truthy `text` is `some` non-empty text — `none` models both
a falsy response object and a falsy `response.text`. -/
def gemini_chat_completion (backend : Except String (Option String)) :
    Except String String :=
  match backend with
  | Except.error e => Except.error e
  | Except.ok none => Except.ok "No response from Gemini"
  | Except.ok (some t) =>
    if t = "" then Except.ok "No response from Gemini" else Except.ok (pyStrip t)

/-- C9: an empty or blocked Gemini response (no exception, but the response
or its text is falsy) does not raise: `chat_completion` returns the literal
string sentinel through the same success channel as generated text — a
genuine response whose text happens to equal the sentinel is
indistinguishable from the failure sentinel. -/
theorem C9_gemini_empty_sentinel :
    gemini_chat_completion (Except.ok none) = Except.ok "No response from Gemini"
    ∧ gemini_chat_completion (Except.ok (some ""))
        = Except.ok "No response from Gemini"
    ∧ gemini_chat_completion (Except.ok (some "No response from Gemini"))
        = Except.ok "No response from Gemini" := by
  refine ⟨rfl, rfl, ?_⟩
  rfl

/-- Model of `os.path.join(base, p)` for the two-argument uses in
image_processor.py: an absolute second component replaces the base. -/
def joinPath (base p : String) : String :=
  if p.data.head? = some '/' then p
  else if base.data.getLast? = some '/' then base ++ p
  else base ++ "/" ++ p

/-- Embedding of `process_deleted_images` (image_processor.py lines
135-161) over a filesystem modelled as the list of existing file paths.
`removeFails` models `os.remove` raising for a given path (the exception is
caught and the loop continues); a missing target file is only a logged
warning and the loop continues as well. -/
def process_deleted_images (removeFails : String → Bool)
    (deleted_images : List String) (target_local_path : String)
    (fs : List String) : List String :=
  match deleted_images with
  | [] => fs
  | p :: rest =>
    let tp := joinPath target_local_path p
    if tp ∈ fs then
      if removeFails tp then
        process_deleted_images removeFails rest target_local_path fs
      else
        process_deleted_images removeFails rest target_local_path
          (fs.filter (fun f => f ≠ tp))
    else
      process_deleted_images removeFails rest target_local_path fs

/-- Helper: `process_deleted_images` never adds files. -/
theorem process_deleted_images_subset (rf : String → Bool) (target : String) :
    ∀ (deleted fs : List String) (f : String),
      f ∈ process_deleted_images rf deleted target fs → f ∈ fs := by
  intro deleted
  induction deleted with
  | nil =>
    intro fs f h
    simpa [process_deleted_images] using h
  | cons p rest ih =>
    intro fs f h
    simp only [process_deleted_images] at h
    split at h
    · split at h
      · exact ih fs f h
      · exact List.mem_of_mem_filter (ih _ f h)
    · exact ih fs f h

/-- Helper: a file whose path is the join of no listed image path
survives `process_deleted_images`. -/
theorem process_deleted_images_keeps (rf : String → Bool) (target : String) :
    ∀ (deleted fs : List String) (f : String),
      f ∈ fs → (∀ p ∈ deleted, f ≠ joinPath target p) →
      f ∈ process_deleted_images rf deleted target fs := by
  intro deleted
  induction deleted with
  | nil =>
    intro fs f hf _
    simpa [process_deleted_images] using hf
  | cons p rest ih =>
    intro fs f hf hne
    simp only [process_deleted_images]
    split
    · split
      · exact ih fs f hf (fun q hq => hne q (List.mem_cons_of_mem p hq))
      · refine ih _ f ?_ (fun q hq => hne q (List.mem_cons_of_mem p hq))
        refine List.mem_filter.mpr ⟨hf, ?_⟩
        simpa using hne p (List.mem_cons_self p rest)
    · exact ih fs f hf (fun q hq => hne q (List.mem_cons_of_mem p hq))

/-- C10: `process_deleted_images` removes only files whose path is a listed
image path joined under the target local path (it never adds files and
never touches unlisted ones); a missing target file merely logs a warning
and iteration continues; a failing `os.remove` is caught, leaves the
filesystem unchanged for that path, and iteration continues.  The function
is total, so no exception escapes. -/
theorem C10_deleted_images_frame (rf : String → Bool)
    (deleted fs : List String) (target : String) :
    (∀ f ∈ process_deleted_images rf deleted target fs, f ∈ fs)
    ∧ (∀ f ∈ fs, (∀ p ∈ deleted, f ≠ joinPath target p) →
        f ∈ process_deleted_images rf deleted target fs)
    ∧ (∀ (p : String) (rest : List String), joinPath target p ∉ fs →
        process_deleted_images rf (p :: rest) target fs
          = process_deleted_images rf rest target fs)
    ∧ (∀ (p : String) (rest : List String), rf (joinPath target p) = true →
        process_deleted_images rf (p :: rest) target fs
          = process_deleted_images rf rest target fs) := by
  refine ⟨fun f h => process_deleted_images_subset rf target deleted fs f h,
          fun f hf hne => process_deleted_images_keeps rf target deleted fs f hf hne,
          ?_, ?_⟩
  · intro p rest hmem
    simp [process_deleted_images, hmem]
  · intro p rest hfail
    by_cases hmem : joinPath target p ∈ fs
    · simp [process_deleted_images, hmem, hfail]
    · simp [process_deleted_images, hmem]

/-- Witness for C10_deleted_images_frame: deleting `a.png` keeps
`t/b.png` in place. -/
theorem C10_deleted_images_frame_witness :
    "t/b.png" ∈ process_deleted_images (fun _ => false) ["a.png"] "t"
      ["t/a.png", "t/b.png"] :=
  (C10_deleted_images_frame (fun _ => false) ["a.png"]
      ["t/a.png", "t/b.png"] "t").2.1 "t/b.png" (by decide) (by decide)

/-- Observable actions of `process_regular_modified_file` after the staged
artifact probe: loading the artifact, calling the section matcher, writing
the match artifact, calling the translation stage, and invoking the final
target-document update. -/
inductive Event where
  | loadArtifact : Event
  | matchCall : Event
  | writeMatch : Event
  | translateCall : Event
  | updateTarget : Event
deriving DecidableEq, Repr

/-- The state a run of `process_regular_modified_file` can touch: the
target document's bytes, the staged match artifact, and the ordered log of
observable actions. -/
structure RunState where
  targetDoc : String
  matchArtifact : Option (List (String × MatchSection))
  log : List Event
deriving DecidableEq, Repr

/-- The external collaborators of `process_regular_modified_file`, modelled
at their interface: the target hierarchy and content returned by
`get_target_hierarchy_and_content`, the `section_matcher`, the translation
stage `process_modified_sections` (`none` models no/failed/non-dict
results), and `update_target_document_from_match_data` (`none` models a
failed update, `some` the rewritten target document). -/
structure Collaborators where
  target_hierarchy : List String
  target_lines : List String
  matcher : List DiffEntry → List String → List String → List (String × MatchSection)
  ai_results : Option (String → Option String)
  updater : List (String × MatchSection) → String → Option String

/-- Embedding of `process_regular_modified_file` (lines 371-516).
`artifact` is the staged `{file-prefix}-source-diff-dict.json`: `none`
means the file does not exist (the function reports and returns `False`
without recomputing it); `some entries` is its parsed content, which is
loaded and reused.  The token gate runs on the loaded artifact and a deny
returns `False` before any matching, translation, or write.  Collaborator
failures likewise return `False` at their stage. -/
def process_regular_modified_file (co : Collaborators)
    (tok : Option (String → Nat)) (token_limit : Nat)
    (artifact : Option (List DiffEntry)) (st : RunState) : Bool × RunState :=
  match artifact with
  | none => (false, st)
  | some entries =>
    let st1 : RunState := ⟨st.targetDoc, st.matchArtifact, st.log ++ [Event.loadArtifact]⟩
    if (check_source_token_limit tok (some entries) token_limit).1 = false then
      (false, st1)
    else if co.target_hierarchy = [] ∨ co.target_lines = [] then (false, st1)
    else
      let enhanced := co.matcher entries co.target_hierarchy co.target_lines
      let st2 : RunState := ⟨st1.targetDoc, st1.matchArtifact, st1.log ++ [Event.matchCall]⟩
      if enhanced = [] then (false, st2)
      else
        let st3 : RunState := ⟨st2.targetDoc, some enhanced, st2.log ++ [Event.writeMatch]⟩
        match co.ai_results with
        | none =>
          (false, ⟨st3.targetDoc, st3.matchArtifact, st3.log ++ [Event.translateCall]⟩)
        | some ai =>
          let st4 : RunState := ⟨st3.targetDoc, st3.matchArtifact, st3.log ++ [Event.translateCall]⟩
          let annotated := annotate_match_data ai enhanced
          let st5 : RunState := ⟨st4.targetDoc, some annotated, st4.log ++ [Event.writeMatch]⟩
          match co.updater annotated st5.targetDoc with
          | none =>
            (false, ⟨st5.targetDoc, st5.matchArtifact, st5.log ++ [Event.updateTarget]⟩)
          | some newDoc =>
            (true, ⟨newDoc, st5.matchArtifact, st5.log ++ [Event.updateTarget]⟩)

/-- C4: if the token gate denies the staged content, the function returns
`False` having only loaded the artifact: the target document's bytes and
the match artifact are unchanged, and no matcher call, translation call, or
write is ever logged — for every possible behavior of the downstream
collaborators. -/
theorem C4_gate_deny_no_side_effect (co : Collaborators)
    (tok : Option (String → Nat)) (token_limit : Nat)
    (entries : List DiffEntry) (st : RunState)
    (hdeny : (check_source_token_limit tok (some entries) token_limit).1 = false) :
    process_regular_modified_file co tok token_limit (some entries) st
      = (false, ⟨st.targetDoc, st.matchArtifact, st.log ++ [Event.loadArtifact]⟩) := by
  simp [process_regular_modified_file, hdeny]

/-- Concrete collaborators used by witnesses. -/
def co0 : Collaborators :=
  ⟨["h"], ["l"], fun _ _ _ => [], none, fun _ _ => none⟩

/-- Witness for C4_gate_deny_no_side_effect: content `"aaaa"` against a
ceiling of 0 is denied and nothing is written. -/
theorem C4_gate_deny_no_side_effect_witness :
    process_regular_modified_file co0 none 0 (some [DiffEntry.sec "aaaa"])
        ⟨"DOC", none, []⟩
      = (false, ⟨"DOC", none, [Event.loadArtifact]⟩) :=
  C4_gate_deny_no_side_effect co0 none 0 [DiffEntry.sec "aaaa"]
    ⟨"DOC", none, []⟩ (by decide)

/-- The stages of `main` (lines 535-681), in program order: the
`clean_temp_output_dir` call, the PR-diff fetch (Step 1), the change
analysis (Step 2), then the Step 3 blocks, each guarded by its bucket
being non-empty: deleted files (3.1), added files (3.2), special TOC files
(3.3), modified files (3.4), and images (3.5). -/
inductive MainStep where
  | cleanTemp : MainStep
  | getDiff : MainStep
  | analyzeChanges : MainStep
  | stepDeletedFiles : MainStep
  | stepAddedFiles : MainStep
  | stepTocFiles : MainStep
  | stepModifiedFiles : MainStep
  | stepImages : MainStep
deriving DecidableEq, Repr

/-- The sequence of stages `main` executes, as a function of which buckets
of the analyzed change set are non-empty. -/
def main_schedule (hasDeleted hasAdded hasToc hasModified hasImages : Bool) :
    List MainStep :=
  [MainStep.cleanTemp, MainStep.getDiff, MainStep.analyzeChanges]
    ++ (if hasDeleted then [MainStep.stepDeletedFiles] else [])
    ++ (if hasAdded then [MainStep.stepAddedFiles] else [])
    ++ (if hasToc then [MainStep.stepTocFiles] else [])
    ++ (if hasModified then [MainStep.stepModifiedFiles] else [])
    ++ (if hasImages then [MainStep.stepImages] else [])

/-- The three image passes of `process_all_images`. -/
inductive ImgStep where
  | deletedImages : ImgStep
  | addedImages : ImgStep
  | modifiedImages : ImgStep
deriving DecidableEq, Repr

/-- The call order of `process_all_images` (image_processor.py lines
163-172): delete first, then add, then modify, unconditionally. -/
def process_all_images_schedule : List ImgStep :=
  [ImgStep.deletedImages, ImgStep.addedImages, ImgStep.modifiedImages]

/-- C6: whatever buckets are non-empty, `main` runs Step 3.1 (deleted
files) before Step 3.2 (added files) before Step 3.4 (modified files) —
its schedule is a sublist of the fixed program order — and
`process_all_images` calls the deleted-images pass before the added-images
pass before the modified-images pass. -/
theorem C6_deletions_before_additions_before_modifications :
    (∀ hasDeleted hasAdded hasToc hasModified hasImages : Bool,
      List.Sublist (main_schedule hasDeleted hasAdded hasToc hasModified hasImages)
        [MainStep.cleanTemp, MainStep.getDiff, MainStep.analyzeChanges,
          MainStep.stepDeletedFiles, MainStep.stepAddedFiles, MainStep.stepTocFiles,
          MainStep.stepModifiedFiles, MainStep.stepImages])
    ∧ process_all_images_schedule.indexOf ImgStep.deletedImages
        < process_all_images_schedule.indexOf ImgStep.addedImages
    ∧ process_all_images_schedule.indexOf ImgStep.addedImages
        < process_all_images_schedule.indexOf ImgStep.modifiedImages := by
  refine ⟨?_, by decide, by decide⟩
  intro d a t m i
  cases d <;> cases a <;> cases t <;> cases m <;> cases i <;> decide

/-- C7: re-running `process_regular_modified_file` with an existing staged
source-diff-dict artifact loads and reuses it (the load is the first
observable action, and there is no recomputation path: a missing artifact
returns `False` untouched rather than regenerating the stage), while
`main`'s schedule starts with `clean_temp_output_dir`, so the staging area
is cleared before any file is processed. -/
theorem C7_artifact_reuse_and_run_start_clean :
    (∀ (co : Collaborators) (tok : Option (String → Nat)) (token_limit : Nat)
        (st : RunState),
      process_regular_modified_file co tok token_limit none st = (false, st))
    ∧ (∀ (co : Collaborators) (tok : Option (String → Nat)) (token_limit : Nat)
        (entries : List DiffEntry) (st : RunState),
        ∃ rest : List Event,
          ((process_regular_modified_file co tok token_limit (some entries) st).2).log
            = st.log ++ Event.loadArtifact :: rest)
    ∧ (∀ hasDeleted hasAdded hasToc hasModified hasImages : Bool,
        (main_schedule hasDeleted hasAdded hasToc hasModified hasImages).head?
          = some MainStep.cleanTemp) := by
  refine ⟨fun _ _ _ _ => rfl, ?_, fun _ _ _ _ _ => rfl⟩
  intro co tok token_limit entries st
  simp only [process_regular_modified_file]
  split
  · exact ⟨[], by simp⟩
  · split
    · exact ⟨[], by simp⟩
    · split
      · exact ⟨[Event.matchCall], by simp⟩
      · split
        · exact ⟨[Event.matchCall, Event.writeMatch, Event.translateCall], by simp⟩
        · split
          · exact ⟨[Event.matchCall, Event.writeMatch, Event.translateCall,
              Event.writeMatch, Event.updateTarget], by simp⟩
          · exact ⟨[Event.matchCall, Event.writeMatch, Event.translateCall,
              Event.writeMatch, Event.updateTarget], by simp⟩
